import Mathlib

/-!
Verification of the HomeWizard kWh meter to D-Bus bridge
(`dbus-homewizard/bridge.py` and `dbus-homewizard/__main__.py`).

The embedding models:
  * the bus service as an association list from property paths to typed
    values, built by `registerDbus` exactly in the order of the
    `service.add_item` calls in `HwDbusBridge.register_dbus`.  A batch
    write (`with self.service as ctx: ctx[path] = value`) is modelled by
    `setPath`, which updates the value stored at an existing path.  Local
    service-side writes always take effect: the `writeable` flag passed to
    `add_item` governs SetValue requests arriving from external bus
    clients, not updates performed by the owning service itself, so it is
    not part of the state.
  * JSON payloads from the meter as association lists from field names to
    rational numbers (all fields the bridge reads are numeric); Python
    floats are modelled as rationals, which is exact for the operations
    the bridge performs (negation and comparison).
  * a raised Python exception as `none` in an `Option` result.
-/

/-- The two accepted values of the `role` argument (`ROLES` in bridge.py). -/
inductive Role
  | grid
  | pvinverter
deriving DecidableEq, Repr

def Role.toStr : Role → String
  | .grid => "grid"
  | .pvinverter => "pvinverter"

/-- A value stored at a bus path: an `IntegerItem`, a `DoubleItem`
(whose value may be null, i.e. `None`), or a `TextItem` (also nullable). -/
inductive BusValue
  | vInt (n : Int)
  | vRat (q : Option ℚ)
  | vStr (s : Option String)
deriving DecidableEq, Repr

/-- The published bus schema: property paths with their current values,
in registration order. -/
abbrev Service := List (String × BusValue)

/-- Read the current value at a path. -/
def lookupSvc (svc : Service) (p : String) : Option BusValue :=
  (svc.find? (fun kv => kv.1 == p)).map (·.2)

/-- `ctx[path] = value` inside the batch-update context: replace the value
stored at `p` (a no-op when `p` is not registered). -/
def setPath (svc : Service) (p : String) (v : BusValue) : Service :=
  svc.map (fun kv => if kv.1 = p then (kv.1, v) else kv)

/-- Convenience projection: the rational stored in a non-null `DoubleItem`
at path `p`, if any. -/
def ratAt (svc : Service) (p : String) : Option ℚ :=
  match lookupSvc svc p with
  | some (.vRat (some q)) => some q
  | _ => none

/-- `HwDbusBridge.register_dbus(serial, product, fw_version)`: the service
tree built by the `add_item` calls, in source order.  `/Position` (and
`/MaxPower` when `maxpower` is an integer) are added only for the
`pvinverter` role.  For the three phase slots, the monitored phase starts
null and the other two start at 0 (bridge.py lines 85-97). -/
def registerDbus (role : Role) (devIdx : Int) (phase : Nat) (position : Int)
    (maxpower : Option Int) (serial product fwVersion : String) : Service :=
  [ ("/ProductName", BusValue.vStr (some ("HomeWizard " ++ product))),
    ("/Mgmt/ProcessName", BusValue.vStr (some "dbus-homewizard")),
    ("/Mgmt/ProcessVersion", BusValue.vStr (some "Unknown version")),
    ("/Mgmt/Connection", BusValue.vStr (some "Ethernet")),
    ("/Connected", BusValue.vInt 0),
    ("/DeviceInstance", BusValue.vInt devIdx),
    ("/ProductId", BusValue.vInt 45069),
    ("/DeviceType", BusValue.vInt 345),
    ("/FirmwareVersion", BusValue.vStr (some fwVersion)),
    ("/HardwareVersion", BusValue.vStr none),
    ("/Role", BusValue.vStr (some role.toStr)),
    ("/Serial", BusValue.vStr (some serial)),
    ("/ErrorCode", BusValue.vInt 0),
    ("/StatusCode", BusValue.vInt 0) ]
  ++ (match role with
      | .pvinverter =>
          ("/Position", BusValue.vInt position) ::
          (match maxpower with
           | some mp => [("/MaxPower", BusValue.vInt mp)]
           | none => [])
      | .grid => [])
  ++ [ ("/Ac/Energy/Forward", BusValue.vRat none),
       ("/Ac/Energy/Reverse", BusValue.vRat none),
       ("/Ac/Power", BusValue.vRat none) ]
  ++ (List.range 3).flatMap (fun j =>
       let i := j + 1
       let initial : Option ℚ := if i = phase then none else some 0
       [ (s!"/Ac/L{i}/Voltage", BusValue.vRat initial),
         (s!"/Ac/L{i}/Current", BusValue.vRat initial),
         (s!"/Ac/L{i}/Power", BusValue.vRat initial) ])

/-- A JSON object from the meter data endpoint: numeric fields by name. -/
abbrev RawData := List (String × ℚ)

/-- `data[key]` returning `none` on a missing key. -/
def jget (d : RawData) (k : String) : Option ℚ :=
  (d.find? (fun kv => kv.1 == k)).map (·.2)

/-- The twelve numeric fields `update_dbus` extracts from the payload. -/
structure Reading where
  energy_exp : ℚ
  energy_imp : ℚ
  power : ℚ
  power_l1 : ℚ
  voltage_l1 : ℚ
  current_l1 : ℚ
  power_l2 : ℚ
  voltage_l2 : ℚ
  current_l2 : ℚ
  power_l3 : ℚ
  voltage_l3 : ℚ
  current_l3 : ℚ
deriving DecidableEq, Repr

/-- The `try` block of `update_dbus` (bridge.py lines 128-140): reading the
twelve required fields.  `data = None` (a `TypeError` on subscripting) or
any missing key (a `KeyError`) collapses the whole reading to unavailable,
i.e. `none` here. -/
def extract (data : Option RawData) : Option Reading :=
  match data with
  | none => none
  | some d => do
      let energy_exp ← jget d "total_power_export_kwh"
      let energy_imp ← jget d "total_power_import_kwh"
      let power ← jget d "active_power_w"
      let power_l1 ← jget d "active_power_l1_w"
      let voltage_l1 ← jget d "active_voltage_l1_v"
      let current_l1 ← jget d "active_current_l1_a"
      let power_l2 ← jget d "active_power_l2_w"
      let voltage_l2 ← jget d "active_voltage_l2_v"
      let current_l2 ← jget d "active_current_l2_a"
      let power_l3 ← jget d "active_power_l3_w"
      let voltage_l3 ← jget d "active_voltage_l3_v"
      let current_l3 ← jget d "active_current_l3_a"
      pure { energy_exp, energy_imp, power, power_l1, voltage_l1, current_l1,
             power_l2, voltage_l2, current_l2, power_l3, voltage_l3, current_l3 }

/-- The batch publish inside `with self.service as ctx` (bridge.py lines
162-180): the thirteen assignments, in source order. -/
def writeAll (svc : Service) (connected : Int)
    (v1 c1 p1 v2 c2 p2 v3 c3 p3 pw efw erv : Option ℚ) : Service :=
  let s := setPath svc "/Connected" (.vInt connected)
  let s := setPath s "/Ac/L1/Voltage" (.vRat v1)
  let s := setPath s "/Ac/L1/Current" (.vRat c1)
  let s := setPath s "/Ac/L1/Power" (.vRat p1)
  let s := setPath s "/Ac/L2/Voltage" (.vRat v2)
  let s := setPath s "/Ac/L2/Current" (.vRat c2)
  let s := setPath s "/Ac/L2/Power" (.vRat p2)
  let s := setPath s "/Ac/L3/Voltage" (.vRat v3)
  let s := setPath s "/Ac/L3/Current" (.vRat c3)
  let s := setPath s "/Ac/L3/Power" (.vRat p3)
  let s := setPath s "/Ac/Power" (.vRat pw)
  let s := setPath s "/Ac/Energy/Forward" (.vRat efw)
  let s := setPath s "/Ac/Energy/Reverse" (.vRat erv)
  s

/-- `HwDbusBridge.update_dbus(data)` (bridge.py lines 127-180).  On a valid
reading, `connected = 1` and the live values are published; the
`pvinverter` role negates the four power values (lines 151-154) and swaps
the energy direction (lines 156-160).  On an unavailable reading all
twelve locals are `None` and `connected = 0`; the `pvinverter` branch then
evaluates `power * -1` with `power = None`, which raises `TypeError` —
modelled as the `none` result.  The exception fires before the `with`
block, so the service is left untouched in that case. -/
def updateDbus (role : Role) (svc : Service) (data : Option RawData) :
    Option Service :=
  match extract data with
  | some r =>
      match role with
      | .pvinverter =>
          some (writeAll svc 1
            (some r.voltage_l1) (some r.current_l1) (some (-r.power_l1))
            (some r.voltage_l2) (some r.current_l2) (some (-r.power_l2))
            (some r.voltage_l3) (some r.current_l3) (some (-r.power_l3))
            (some (-r.power)) (some r.energy_exp) (some r.energy_imp))
      | .grid =>
          some (writeAll svc 1
            (some r.voltage_l1) (some r.current_l1) (some r.power_l1)
            (some r.voltage_l2) (some r.current_l2) (some r.power_l2)
            (some r.voltage_l3) (some r.current_l3) (some r.power_l3)
            (some r.power) (some r.energy_imp) (some r.energy_exp))
  | none =>
      match role with
      | .pvinverter => none
      | .grid =>
          some (writeAll svc 0
            none none none none none none none none none none none none)

/-- The rational 0.43 (= 43/100), the example current on phase 1, written
as a normalized fraction. -/
def q043 : ℚ := ⟨43, 100, by decide, by decide⟩

/-- The data payload of the end-to-end example in the spec: 100 W active
power, 0 kWh exported, 5 kWh imported, 230 V and 0.43 A on phase 1, with
the remaining required per-phase fields present. -/
def examplePayload : RawData :=
  [ ("total_power_export_kwh", 0),
    ("total_power_import_kwh", 5),
    ("active_power_w", 100),
    ("active_power_l1_w", 100),
    ("active_voltage_l1_v", 230),
    ("active_current_l1_a", q043),
    ("active_power_l2_w", 0),
    ("active_voltage_l2_v", 0),
    ("active_current_l2_a", 0),
    ("active_power_l3_w", 0),
    ("active_voltage_l3_v", 0),
    ("active_current_l3_a", 0) ]

/-- The `Reading` that `examplePayload` extracts to. -/
def exampleReading : Reading :=
  { energy_exp := 0, energy_imp := 5, power := 100,
    power_l1 := 100, voltage_l1 := 230, current_l1 := q043,
    power_l2 := 0, voltage_l2 := 0, current_l2 := 0,
    power_l3 := 0, voltage_l3 := 0, current_l3 := 0 }

/-- The possible outcomes of the `requests.get(url, timeout=3)` call plus
JSON decoding, as seen by `__get_hw`:
  * `timeout`: the request raised `requests.exceptions.Timeout` (this
    includes `ConnectTimeout`, so a powered-down meter lands here);
  * `transportError`: the request raised some other transport exception,
    e.g. `requests.exceptions.ConnectionError` for an unreachable or
    refusing host;
  * `response body`: an HTTP response was obtained; `body` is `some` of
    the decoded JSON object, or `none` when `response.json()` raises
    `requests.exceptions.JSONDecodeError`. -/
inductive FetchOutcome
  | timeout
  | transportError
  | response (body : Option RawData)
deriving DecidableEq, Repr

/-- `HwDbusBridge.__get_hw(url)` (bridge.py lines 106-117).  The first
`try` catches only `requests.exceptions.Timeout`; the second catches only
`requests.exceptions.JSONDecodeError`.  Any other exception — such as a
`ConnectionError` from an unreachable host — is not caught and propagates
to the caller, modelled as `Except.error ()`. -/
def getHw : FetchOutcome → Except Unit (Option RawData)
  | .timeout => .ok none
  | .transportError => .error ()
  | .response none => .ok none
  | .response (some d) => .ok (some d)

/-- The effective duration of `await asyncio.sleep(d)`: a non-positive
delay yields control and returns immediately (documented behaviour of
`asyncio.sleep`), so the effective wait is `max d 0`. -/
def sleepEffective (d : ℚ) : ℚ := max d 0

/-- One iteration of the steady-state poll loop of `HwDbusBridge.run`
(bridge.py lines 206-215), given the value `data` returned by
`get_hw_data` and the measured `elapsed` wall time of the cycle.  The
body first calls `update_dbus(data)` (line 209); when that raises (the
`pvinverter` case of C1 on an unavailable reading) the exception
propagates out of the loop and neither sleep is reached — modelled as
`none`.  Otherwise the cycle yields the updated service together with
the effective sleep: a fixed 5 seconds when `data is None` (line 212),
else `pollinterval - elapsed` clamped at zero by `asyncio.sleep`
(line 215). -/
def pollCycle (role : Role) (svc : Service) (data : Option RawData)
    (pollinterval elapsed : ℚ) : Option (Service × ℚ) :=
  match updateDbus role svc data with
  | none => none
  | some s2 =>
      match data with
      | none => some (s2, 5)
      | some _ => some (s2, sleepEffective (pollinterval - elapsed))

/-- The identity payload from the `/api` endpoint, as read by `run`
(bridge.py lines 192-195). -/
structure HwIdentity where
  serial : String
  firmware_version : String
  api_version : String
  product_type : String
deriving DecidableEq, Repr

/-- Where the startup sequence of `HwDbusBridge.run` (bridge.py lines
185-204) stands after consuming a finite prefix of identity-fetch
outcomes:
  * `pending slept`: still in the retry loop, having slept `slept`
    seconds in total;
  * `exitWith code`: the process terminated via `sys.exit(code)`;
  * `registered svc slept`: the bus schema `svc` was published after
    `slept` seconds spent sleeping between failed identity fetches. -/
inductive RunStart
  | pending (slept : ℚ)
  | exitWith (code : Nat)
  | registered (svc : Service) (slept : ℚ)
deriving DecidableEq, Repr

/-- The startup sequence of `HwDbusBridge.run`, driven by a finite list of
identity-fetch outcomes (`None` = unavailable).  Each unavailable fetch
sleeps 5 seconds and retries (lines 186-190).  On the first successful
fetch, `sys.exit(1)` fires when the reported API version is not `"v1"`
(lines 198-201); otherwise `register_dbus` publishes the schema
(line 204). -/
def startupRun (role : Role) (devIdx : Int) (phase : Nat) (position : Int)
    (maxpower : Option Int) :
    List (Option HwIdentity) → ℚ → RunStart
  | [], slept => .pending slept
  | none :: rest, slept =>
      startupRun role devIdx phase position maxpower rest (slept + 5)
  | some info :: _, slept =>
      if info.api_version = "v1" then
        .registered
          (registerDbus role devIdx phase position maxpower
            info.serial info.product_type info.firmware_version) slept
      else .exitWith 1

/-- Split a character list into its longest prefix of digits (counted)
and the remainder. -/
def digitSpan : List Char → Nat × List Char
  | [] => (0, [])
  | c :: cs =>
      if c.isDigit then
        let (n, rest) := digitSpan cs
        (n + 1, rest)
      else (0, c :: cs)

/-- Match `\d{1,3}` followed, when `groups > 0`, by a dot and `groups - 1`
further dot-separated `\d{1,3}` groups; when `groups = 0` the end of the
string must follow (`$` in Python also matches just before one trailing
newline). -/
def ipMatchAux : Nat → List Char → Bool
  | 0, cs =>
      (match digitSpan cs with
       | (n, rest) =>
          decide (1 ≤ n) && decide (n ≤ 3) &&
          (match rest with
           | [] => true
           | [c] => c = '\n'
           | _ => false))
  | g + 1, cs =>
      (match digitSpan cs with
       | (n, rest) =>
          decide (1 ≤ n) && decide (n ≤ 3) &&
          (match rest with
           | c :: rest2 => c = '.' && ipMatchAux g rest2
           | [] => false))

/-- The IP check of `__main__.py` line 33: `re.match` of
`\d{1,3}\.\d{1,3}\.\d{1,3}\.\d{1,3}$` — four groups of one to three
digits separated by dots, anchored at the start by `re.match` and at the
end by `$`.  (`\d` here is the ASCII digit class; Python also admits
other Unicode digits, which is immaterial to the exit-status claims.) -/
def ipValid (s : String) : Bool :=
  ipMatchAux 3 s.toList

/-- The poll-interval floor 0.2 of `__main__.py` line 42, as a rational. -/
def pollFloor : ℚ := ⟨1, 5, by decide, by decide⟩

/-- The rational 0.1, a poll interval below the floor. -/
def qTenth : ℚ := ⟨1, 10, by decide, by decide⟩

/-- The argument validation of `__main__.py` lines 33-44: a malformed IP
exits with status 1; a poll interval below 0.2 exits with status 2 (the
check below 0.5 only prints a warning); otherwise the bridge is
constructed and run.  `none` means validation passed. -/
def validateStartup (ip : String) (pollinterval : ℚ) : Option Nat :=
  if ipValid ip = false then some 1
  else if pollinterval < pollFloor then some 2
  else none

/-- The thirteen paths assigned in the `with self.service as ctx` block of
`update_dbus`, in write order. -/
def writtenPaths : List String :=
  [ "/Connected",
    "/Ac/L1/Voltage", "/Ac/L1/Current", "/Ac/L1/Power",
    "/Ac/L2/Voltage", "/Ac/L2/Current", "/Ac/L2/Power",
    "/Ac/L3/Voltage", "/Ac/L3/Current", "/Ac/L3/Power",
    "/Ac/Power", "/Ac/Energy/Forward", "/Ac/Energy/Reverse" ]

example : extract (some examplePayload) = some exampleReading := by decide

example : updateDbus .pvinverter
    (registerDbus .pvinverter 10 1 0 none "X" "P1" "1.2") none = none := by decide

example : ipValid "192.168.1.10" = true := by decide

example : ipValid "localhost" = false := by decide

theorem setPath_pred (p q : String) (v : BusValue) :
    ((fun kv : String × BusValue => kv.1 == p) ∘
      fun kv : String × BusValue => if kv.1 = q then (kv.1, v) else kv) =
    fun kv : String × BusValue => kv.1 == p := by
  funext kv
  by_cases hq : kv.1 = q <;> simp [hq]

theorem lookup_setPath_ne {p q : String} (h : p ≠ q) (svc : Service)
    (v : BusValue) : lookupSvc (setPath svc q v) p = lookupSvc svc p := by
  unfold lookupSvc setPath
  rw [List.find?_map, setPath_pred]
  cases hf : svc.find? (fun kv => kv.1 == p) with
  | none => rfl
  | some kv =>
      have hkp : kv.1 = p := by simpa using List.find?_some hf
      have hkq : kv.1 ≠ q := by rw [hkp]; exact h
      simp [hkq]

theorem lookup_setPath_eq {p : String} {svc : Service} (v : BusValue)
    (h : (lookupSvc svc p).isSome = true) :
    lookupSvc (setPath svc p v) p = some v := by
  unfold lookupSvc setPath
  rw [List.find?_map, setPath_pred]
  cases hf : svc.find? (fun kv => kv.1 == p) with
  | none =>
      unfold lookupSvc at h
      rw [hf] at h
      simp at h
  | some kv =>
      have hkp : kv.1 = p := by simpa using List.find?_some hf
      simp [hkp]

theorem isSome_lookup_setPath (svc : Service) (q : String) (v : BusValue)
    (p : String) :
    (lookupSvc (setPath svc q v) p).isSome = (lookupSvc svc p).isSome := by
  unfold lookupSvc setPath
  rw [List.find?_map, setPath_pred]
  cases hf : svc.find? (fun kv => kv.1 == p) <;> rfl

theorem lookup_writeAll_frame {svc : Service} {c : Int}
    {v1 c1 p1 v2 c2 p2 v3 c3 p3 pw efw erv : Option ℚ}
    {p : String} (hp : p ∉ writtenPaths) :
    lookupSvc (writeAll svc c v1 c1 p1 v2 c2 p2 v3 c3 p3 pw efw erv) p =
      lookupSvc svc p := by
  simp only [writtenPaths, List.mem_cons, List.not_mem_nil, or_false,
    not_or] at hp
  obtain ⟨h1, h2, h3, h4, h5, h6, h7, h8, h9, h10, h11, h12, h13⟩ := hp
  simp only [writeAll]
  rw [lookup_setPath_ne h13, lookup_setPath_ne h12, lookup_setPath_ne h11,
      lookup_setPath_ne h10, lookup_setPath_ne h9, lookup_setPath_ne h8,
      lookup_setPath_ne h7, lookup_setPath_ne h6, lookup_setPath_ne h5,
      lookup_setPath_ne h4, lookup_setPath_ne h3, lookup_setPath_ne h2,
      lookup_setPath_ne h1]

/-- C10: a poll-cycle publish (`update_dbus`) writes only the thirteen
paths of `writtenPaths`; every other registered bus property — identity
strings such as `/Serial`, `/FirmwareVersion`, `/ProductName`, and
`/DeviceInstance`, `/ProductId`, `/DeviceType`, `/ErrorCode`,
`/StatusCode`, `/Role`, `/Position`, `/MaxPower` — is left unchanged by
every poll cycle that completes. -/
theorem C10_poll_frame (role : Role) (svc : Service) (data : Option RawData)
    (s2 : Service) (h : updateDbus role svc data = some s2)
    {p : String} (hp : p ∉ writtenPaths) :
    lookupSvc s2 p = lookupSvc svc p := by
  unfold updateDbus at h
  split at h <;> split at h <;>
    first
    | exact Option.noConfusion h
    | (cases h; exact lookup_writeAll_frame hp)

theorem C10_poll_frame_witness :
    lookupSvc
      (writeAll (registerDbus .grid 10 1 0 none "X" "P1" "1.2") 0
        none none none none none none none none none none none none)
      "/Serial" =
    lookupSvc (registerDbus .grid 10 1 0 none "X" "P1" "1.2") "/Serial" :=
  C10_poll_frame .grid (registerDbus .grid 10 1 0 none "X" "P1" "1.2") none
    _ rfl (by decide)

theorem lookup_writeAll_reverse {svc : Service} {c : Int}
    {v1 c1 p1 v2 c2 p2 v3 c3 p3 pw efw erv : Option ℚ}
    (h : (lookupSvc svc "/Ac/Energy/Reverse").isSome = true) :
    lookupSvc (writeAll svc c v1 c1 p1 v2 c2 p2 v3 c3 p3 pw efw erv)
      "/Ac/Energy/Reverse" = some (.vRat erv) := by
  simp only [writeAll]
  exact lookup_setPath_eq _ (by simp only [isSome_lookup_setPath]; exact h)

theorem lookup_writeAll_forward {svc : Service} {c : Int}
    {v1 c1 p1 v2 c2 p2 v3 c3 p3 pw efw erv : Option ℚ}
    (h : (lookupSvc svc "/Ac/Energy/Forward").isSome = true) :
    lookupSvc (writeAll svc c v1 c1 p1 v2 c2 p2 v3 c3 p3 pw efw erv)
      "/Ac/Energy/Forward" = some (.vRat efw) := by
  simp only [writeAll]
  rw [lookup_setPath_ne (by decide)]
  exact lookup_setPath_eq _ (by simp only [isSome_lookup_setPath]; exact h)

theorem lookup_writeAll_acPower {svc : Service} {c : Int}
    {v1 c1 p1 v2 c2 p2 v3 c3 p3 pw efw erv : Option ℚ}
    (h : (lookupSvc svc "/Ac/Power").isSome = true) :
    lookupSvc (writeAll svc c v1 c1 p1 v2 c2 p2 v3 c3 p3 pw efw erv)
      "/Ac/Power" = some (.vRat pw) := by
  simp only [writeAll]
  rw [lookup_setPath_ne (by decide), lookup_setPath_ne (by decide)]
  exact lookup_setPath_eq _ (by simp only [isSome_lookup_setPath]; exact h)

theorem lookup_writeAll_l3Power {svc : Service} {c : Int}
    {v1 c1 p1 v2 c2 p2 v3 c3 p3 pw efw erv : Option ℚ}
    (h : (lookupSvc svc "/Ac/L3/Power").isSome = true) :
    lookupSvc (writeAll svc c v1 c1 p1 v2 c2 p2 v3 c3 p3 pw efw erv)
      "/Ac/L3/Power" = some (.vRat p3) := by
  simp only [writeAll]
  rw [lookup_setPath_ne (by decide), lookup_setPath_ne (by decide),
      lookup_setPath_ne (by decide)]
  exact lookup_setPath_eq _ (by simp only [isSome_lookup_setPath]; exact h)

theorem lookup_writeAll_l2Power {svc : Service} {c : Int}
    {v1 c1 p1 v2 c2 p2 v3 c3 p3 pw efw erv : Option ℚ}
    (h : (lookupSvc svc "/Ac/L2/Power").isSome = true) :
    lookupSvc (writeAll svc c v1 c1 p1 v2 c2 p2 v3 c3 p3 pw efw erv)
      "/Ac/L2/Power" = some (.vRat p2) := by
  simp only [writeAll]
  rw [lookup_setPath_ne (by decide), lookup_setPath_ne (by decide),
      lookup_setPath_ne (by decide), lookup_setPath_ne (by decide),
      lookup_setPath_ne (by decide), lookup_setPath_ne (by decide)]
  exact lookup_setPath_eq _ (by simp only [isSome_lookup_setPath]; exact h)

theorem lookup_writeAll_l1Power {svc : Service} {c : Int}
    {v1 c1 p1 v2 c2 p2 v3 c3 p3 pw efw erv : Option ℚ}
    (h : (lookupSvc svc "/Ac/L1/Power").isSome = true) :
    lookupSvc (writeAll svc c v1 c1 p1 v2 c2 p2 v3 c3 p3 pw efw erv)
      "/Ac/L1/Power" = some (.vRat p1) := by
  simp only [writeAll]
  rw [lookup_setPath_ne (by decide), lookup_setPath_ne (by decide),
      lookup_setPath_ne (by decide), lookup_setPath_ne (by decide),
      lookup_setPath_ne (by decide), lookup_setPath_ne (by decide),
      lookup_setPath_ne (by decide), lookup_setPath_ne (by decide),
      lookup_setPath_ne (by decide)]
  exact lookup_setPath_eq _ (by simp only [isSome_lookup_setPath]; exact h)

theorem ratAt_writeAll_acPower {svc : Service} {c : Int}
    {v1 c1 p1 v2 c2 p2 v3 c3 p3 pw efw erv : Option ℚ}
    (h : (lookupSvc svc "/Ac/Power").isSome = true) :
    ratAt (writeAll svc c v1 c1 p1 v2 c2 p2 v3 c3 p3 pw efw erv)
      "/Ac/Power" = pw := by
  unfold ratAt
  rw [lookup_writeAll_acPower h]
  cases pw <;> rfl

theorem ratAt_writeAll_l1Power {svc : Service} {c : Int}
    {v1 c1 p1 v2 c2 p2 v3 c3 p3 pw efw erv : Option ℚ}
    (h : (lookupSvc svc "/Ac/L1/Power").isSome = true) :
    ratAt (writeAll svc c v1 c1 p1 v2 c2 p2 v3 c3 p3 pw efw erv)
      "/Ac/L1/Power" = p1 := by
  unfold ratAt
  rw [lookup_writeAll_l1Power h]
  cases p1 <;> rfl

theorem ratAt_writeAll_l2Power {svc : Service} {c : Int}
    {v1 c1 p1 v2 c2 p2 v3 c3 p3 pw efw erv : Option ℚ}
    (h : (lookupSvc svc "/Ac/L2/Power").isSome = true) :
    ratAt (writeAll svc c v1 c1 p1 v2 c2 p2 v3 c3 p3 pw efw erv)
      "/Ac/L2/Power" = p2 := by
  unfold ratAt
  rw [lookup_writeAll_l2Power h]
  cases p2 <;> rfl

theorem ratAt_writeAll_l3Power {svc : Service} {c : Int}
    {v1 c1 p1 v2 c2 p2 v3 c3 p3 pw efw erv : Option ℚ}
    (h : (lookupSvc svc "/Ac/L3/Power").isSome = true) :
    ratAt (writeAll svc c v1 c1 p1 v2 c2 p2 v3 c3 p3 pw efw erv)
      "/Ac/L3/Power" = p3 := by
  unfold ratAt
  rw [lookup_writeAll_l3Power h]
  cases p3 <;> rfl

theorem ratAt_writeAll_forward {svc : Service} {c : Int}
    {v1 c1 p1 v2 c2 p2 v3 c3 p3 pw efw erv : Option ℚ}
    (h : (lookupSvc svc "/Ac/Energy/Forward").isSome = true) :
    ratAt (writeAll svc c v1 c1 p1 v2 c2 p2 v3 c3 p3 pw efw erv)
      "/Ac/Energy/Forward" = efw := by
  unfold ratAt
  rw [lookup_writeAll_forward h]
  cases efw <;> rfl

theorem ratAt_writeAll_reverse {svc : Service} {c : Int}
    {v1 c1 p1 v2 c2 p2 v3 c3 p3 pw efw erv : Option ℚ}
    (h : (lookupSvc svc "/Ac/Energy/Reverse").isSome = true) :
    ratAt (writeAll svc c v1 c1 p1 v2 c2 p2 v3 c3 p3 pw efw erv)
      "/Ac/Energy/Reverse" = erv := by
  unfold ratAt
  rw [lookup_writeAll_reverse h]
  cases erv <;> rfl

theorem regHas_acPower (role : Role) (devIdx : Int) (phase : Nat)
    (position : Int) (maxpower : Option Int)
    (serial product fwVersion : String) :
    (lookupSvc (registerDbus role devIdx phase position maxpower serial
      product fwVersion) "/Ac/Power").isSome = true := by
  cases role <;> cases maxpower <;> rfl

theorem regHas_l1Power (role : Role) (devIdx : Int) (phase : Nat)
    (position : Int) (maxpower : Option Int)
    (serial product fwVersion : String) :
    (lookupSvc (registerDbus role devIdx phase position maxpower serial
      product fwVersion) "/Ac/L1/Power").isSome = true := by
  cases role <;> cases maxpower <;> rfl

theorem regHas_l2Power (role : Role) (devIdx : Int) (phase : Nat)
    (position : Int) (maxpower : Option Int)
    (serial product fwVersion : String) :
    (lookupSvc (registerDbus role devIdx phase position maxpower serial
      product fwVersion) "/Ac/L2/Power").isSome = true := by
  cases role <;> cases maxpower <;> rfl

theorem regHas_l3Power (role : Role) (devIdx : Int) (phase : Nat)
    (position : Int) (maxpower : Option Int)
    (serial product fwVersion : String) :
    (lookupSvc (registerDbus role devIdx phase position maxpower serial
      product fwVersion) "/Ac/L3/Power").isSome = true := by
  cases role <;> cases maxpower <;> rfl

theorem regHas_forward (role : Role) (devIdx : Int) (phase : Nat)
    (position : Int) (maxpower : Option Int)
    (serial product fwVersion : String) :
    (lookupSvc (registerDbus role devIdx phase position maxpower serial
      product fwVersion) "/Ac/Energy/Forward").isSome = true := by
  cases role <;> cases maxpower <;> rfl

theorem regHas_reverse (role : Role) (devIdx : Int) (phase : Nat)
    (position : Int) (maxpower : Option Int)
    (serial product fwVersion : String) :
    (lookupSvc (registerDbus role devIdx phase position maxpower serial
      product fwVersion) "/Ac/Energy/Reverse").isSome = true := by
  cases role <;> cases maxpower <;> rfl

/-- C1: for a valid reading both roles publish `/Connected = 1` and
non-null measurements, but on an `Unavailable` reading `update_dbus` does
NOT complete for role `pvinverter`: with every local set to `None` it
evaluates `power * -1`, which raises `TypeError` before the publish block
(first conjunct, result `none`).  Only under role `grid` does it complete
and publish `/Connected = 0` with all twelve measurement fields null
(second conjunct). -/
theorem C1_pvinverter_unavailable_raises :
    updateDbus .pvinverter
      (registerDbus .pvinverter 10 1 0 none "X" "P1" "1.2") none = none ∧
    (updateDbus .grid (registerDbus .grid 10 1 0 none "X" "P1" "1.2")
        none).map (fun s => writtenPaths.map (lookupSvc s)) =
      some (some (BusValue.vInt 0) ::
        List.replicate 12 (some (BusValue.vRat none))) := by
  constructor
  · rfl
  · decide

/-- C2: the claim that `/Ac/L1/*` and `/Ac/L3/*` stay frozen at 0 for a
single-phase configuration with `phase = 2` fails: `update_dbus` assigns
all three phase slots on every cycle, so after one valid reading with
`active_voltage_l1_v = 230` the published `/Ac/L1/Voltage` is 230, no
longer the 0 it was initialised to at registration; on an unavailable
reading (role `grid`) the slot is even cleared to null. -/
theorem C2_unused_phase_overwritten :
    ratAt (registerDbus .grid 10 2 0 none "X" "P1" "1.2") "/Ac/L1/Voltage" =
      some 0 ∧
    (updateDbus .grid (registerDbus .grid 10 2 0 none "X" "P1" "1.2")
        (some examplePayload)).map (fun s => ratAt s "/Ac/L1/Voltage") =
      some (some 230) ∧
    (updateDbus .grid (registerDbus .grid 10 2 0 none "X" "P1" "1.2")
        none).map (fun s => lookupSvc s "/Ac/L1/Voltage") =
      some (some (BusValue.vRat none)) ∧
    (230 : ℚ) ≠ 0 := by
  refine ⟨by decide, by decide, by decide, by decide⟩

/-- C3: for any raw payload containing all twelve required fields, the
power published under role `pvinverter` (total and per phase) is the
negation of the power published under role `grid`, all other
configuration being identical. -/
theorem C3_role_power_negation (devIdx : Int) (phase : Nat) (position : Int)
    (maxpower : Option Int) (serial product fwVersion : String)
    (d : RawData) (r : Reading) (h : extract (some d) = some r) :
    (updateDbus .grid
        (registerDbus .grid devIdx phase position maxpower serial product
          fwVersion) (some d)).map
      (fun s => [ratAt s "/Ac/Power", ratAt s "/Ac/L1/Power",
                 ratAt s "/Ac/L2/Power", ratAt s "/Ac/L3/Power"]) =
      some [some r.power, some r.power_l1, some r.power_l2,
            some r.power_l3] ∧
    (updateDbus .pvinverter
        (registerDbus .pvinverter devIdx phase position maxpower serial
          product fwVersion) (some d)).map
      (fun s => [ratAt s "/Ac/Power", ratAt s "/Ac/L1/Power",
                 ratAt s "/Ac/L2/Power", ratAt s "/Ac/L3/Power"]) =
      some [some (-r.power), some (-r.power_l1), some (-r.power_l2),
            some (-r.power_l3)] := by
  constructor <;>
    (simp only [updateDbus, h, Option.map_some']
     rw [ratAt_writeAll_acPower (regHas_acPower _ _ _ _ _ _ _ _),
         ratAt_writeAll_l1Power (regHas_l1Power _ _ _ _ _ _ _ _),
         ratAt_writeAll_l2Power (regHas_l2Power _ _ _ _ _ _ _ _),
         ratAt_writeAll_l3Power (regHas_l3Power _ _ _ _ _ _ _ _)])

theorem C3_role_power_negation_witness :
    (updateDbus .grid
        (registerDbus .grid 10 1 0 none "X" "P1" "1.2")
        (some examplePayload)).map
      (fun s => [ratAt s "/Ac/Power", ratAt s "/Ac/L1/Power",
                 ratAt s "/Ac/L2/Power", ratAt s "/Ac/L3/Power"]) =
      some [some 100, some 100, some 0, some 0] ∧
    (updateDbus .pvinverter
        (registerDbus .pvinverter 10 1 0 none "X" "P1" "1.2")
        (some examplePayload)).map
      (fun s => [ratAt s "/Ac/Power", ratAt s "/Ac/L1/Power",
                 ratAt s "/Ac/L2/Power", ratAt s "/Ac/L3/Power"]) =
      some [some (-100), some (-100), some (-0), some (-0)] :=
  C3_role_power_negation 10 1 0 none "X" "P1" "1.2" examplePayload
    exampleReading (by decide)

/-- C4: for any valid payload, under role `grid` the published
`/Ac/Energy/Forward` is the raw total import and `/Ac/Energy/Reverse` the
raw total export; under role `pvinverter` the two are swapped (forward =
raw export, reverse = raw import), and the energy values are published
unnegated in both cases. -/
theorem C4_energy_direction (devIdx : Int) (phase : Nat) (position : Int)
    (maxpower : Option Int) (serial product fwVersion : String)
    (d : RawData) (r : Reading) (h : extract (some d) = some r) :
    (updateDbus .grid
        (registerDbus .grid devIdx phase position maxpower serial product
          fwVersion) (some d)).map
      (fun s => (ratAt s "/Ac/Energy/Forward",
                 ratAt s "/Ac/Energy/Reverse")) =
      some (some r.energy_imp, some r.energy_exp) ∧
    (updateDbus .pvinverter
        (registerDbus .pvinverter devIdx phase position maxpower serial
          product fwVersion) (some d)).map
      (fun s => (ratAt s "/Ac/Energy/Forward",
                 ratAt s "/Ac/Energy/Reverse")) =
      some (some r.energy_exp, some r.energy_imp) := by
  constructor <;>
    (simp only [updateDbus, h, Option.map_some']
     rw [ratAt_writeAll_forward (regHas_forward _ _ _ _ _ _ _ _),
         ratAt_writeAll_reverse (regHas_reverse _ _ _ _ _ _ _ _)])

theorem C4_energy_direction_witness :
    (updateDbus .grid
        (registerDbus .grid 10 1 0 none "X" "P1" "1.2")
        (some examplePayload)).map
      (fun s => (ratAt s "/Ac/Energy/Forward",
                 ratAt s "/Ac/Energy/Reverse")) =
      some (some 5, some 0) ∧
    (updateDbus .pvinverter
        (registerDbus .pvinverter 10 1 0 none "X" "P1" "1.2")
        (some examplePayload)).map
      (fun s => (ratAt s "/Ac/Energy/Forward",
                 ratAt s "/Ac/Energy/Reverse")) =
      some (some 0, some 5) :=
  C4_energy_direction 10 1 0 none "X" "P1" "1.2" examplePayload
    exampleReading (by decide)

/-- C5 counterexample: a transport failure other than a timeout (for
example `requests.exceptions.ConnectionError` from an unreachable host) is
not folded into the `Unavailable` outcome — `__get_hw` raises it to the
caller instead of returning `None`. -/
theorem C5_counterexample :
    getHw .transportError = .error () ∧ getHw .transportError ≠ .ok none :=
  ⟨rfl, fun h => Except.noConfusion h⟩

/-- C5 (amended): `__get_hw` returns `Unavailable` (`None`) and logs a
diagnostic on a request timeout and on a response body that fails to
parse as JSON, and returns the decoded payload otherwise; but a transport
failure other than a timeout is not caught and raises to the caller. -/
theorem C5_fetch_error_policy :
    (∀ o : FetchOutcome, o ≠ .transportError → ∃ r, getHw o = .ok r) ∧
    getHw .timeout = .ok none ∧
    getHw (.response none) = .ok none ∧
    (∀ d : RawData, getHw (.response (some d)) = .ok (some d)) ∧
    getHw .transportError = .error () := by
  refine ⟨?_, rfl, rfl, fun d => rfl, rfl⟩
  intro o ho
  cases o with
  | timeout => exact ⟨none, rfl⟩
  | transportError => exact absurd rfl ho
  | response b =>
      cases b with
      | none => exact ⟨none, rfl⟩
      | some d => exact ⟨some d, rfl⟩

theorem C5_fetch_error_policy_witness : ∃ r, getHw .timeout = .ok r :=
  C5_fetch_error_policy.1 .timeout (fun h => FetchOutcome.noConfusion h)

theorem sleepEffective_eq_max (d : ℚ) : sleepEffective d = max 0 d :=
  max_comm d 0

/-- C6 counterexample: under role `pvinverter` a failed fetch does not
lead to the claimed fixed 5-second sleep — `update_dbus(None)` at
bridge.py line 209 raises `TypeError` before the sleep at line 212 is
reached, and the cycle aborts with no sleep at all. -/
theorem C6_counterexample :
    pollCycle .pvinverter (registerDbus .pvinverter 10 1 0 none "X" "P1" "1.2")
      none 1 0 = none := by decide

/-- C6 (amended): in the steady-state poll loop, after a successful fetch
the effective sleep is `max 0 (pollinterval - elapsed)` under either role
— in particular it is never negative, so when `elapsed` exceeds the
interval the next cycle starts immediately.  After a failed fetch
(`data = None`), under role `grid` the cycle publishes the cleared state
and sleeps a fixed 5 seconds, independent of the configured interval;
under role `pvinverter` the cycle instead raises in `update_dbus` before
either sleep is reached, so no retry sleep occurs. -/
theorem C6_poll_cadence (svc : Service) (pollinterval elapsed : ℚ)
    (role : Role) (d : RawData) (r : Reading)
    (h : extract (some d) = some r) :
    (∃ s2, pollCycle role svc (some d) pollinterval elapsed =
       some (s2, max 0 (pollinterval - elapsed)) ∧
       0 ≤ max 0 (pollinterval - elapsed)) ∧
    pollCycle .grid svc none pollinterval elapsed =
      some (writeAll svc 0 none none none none none none none none none
        none none none, 5) ∧
    pollCycle .pvinverter svc none pollinterval elapsed = none := by
  refine ⟨?_, rfl, rfl⟩
  cases role <;>
    (simp only [pollCycle, updateDbus, h, sleepEffective_eq_max]
     exact ⟨_, rfl, le_max_left 0 _⟩)

theorem C6_poll_cadence_witness :
    (∃ s2, pollCycle .grid (registerDbus .grid 10 1 0 none "X" "P1" "1.2")
       (some examplePayload) 1 0 = some (s2, max 0 ((1 : ℚ) - 0)) ∧
       0 ≤ max 0 ((1 : ℚ) - 0)) ∧
    pollCycle .grid (registerDbus .grid 10 1 0 none "X" "P1" "1.2") none
      1 0 =
      some (writeAll (registerDbus .grid 10 1 0 none "X" "P1" "1.2") 0
        none none none none none none none none none none none none, 5) ∧
    pollCycle .pvinverter (registerDbus .grid 10 1 0 none "X" "P1" "1.2")
      none 1 0 = none :=
  C6_poll_cadence (registerDbus .grid 10 1 0 none "X" "P1" "1.2") 1 0
    .grid examplePayload exampleReading (by decide)

theorem startupRun_replicate (role : Role) (devIdx : Int) (phase : Nat)
    (position : Int) (maxpower : Option Int) (k : Nat)
    (l : List (Option HwIdentity)) (s : ℚ) :
    startupRun role devIdx phase position maxpower
      (List.replicate k none ++ l) s =
    startupRun role devIdx phase position maxpower l (s + 5 * k) := by
  induction k generalizing s with
  | zero => simp
  | succ n ih =>
      rw [List.replicate_succ, List.cons_append]
      show startupRun role devIdx phase position maxpower
        (List.replicate n none ++ l) (s + 5) = _
      rw [ih]
      congr 1
      push_cast
      ring

/-- C7: the startup state machine registers the bus schema only after a
successful identity fetch: a run of `k` unavailable fetches leaves it
waiting, having slept 5 seconds per retry with no retry bound (first
conjunct), and the first successful fetch either registers the schema —
when the reported API version is `"v1"` — or terminates the process with
`sys.exit(1)` without registering and without retrying (second
conjunct). -/
theorem C7_startup_state_machine (role : Role) (devIdx : Int) (phase : Nat)
    (position : Int) (maxpower : Option Int) (k : Nat) (info : HwIdentity)
    (rest : List (Option HwIdentity)) :
    startupRun role devIdx phase position maxpower
      (List.replicate k none) 0 = .pending (5 * k) ∧
    startupRun role devIdx phase position maxpower
      (List.replicate k none ++ some info :: rest) 0 =
      (if info.api_version = "v1" then
        .registered (registerDbus role devIdx phase position maxpower
          info.serial info.product_type info.firmware_version) (5 * k)
       else .exitWith 1) := by
  constructor
  · have h0 := startupRun_replicate role devIdx phase position maxpower k [] 0
    rw [List.append_nil] at h0
    rw [h0]
    show RunStart.pending (0 + 5 * (k : ℚ)) = _
    norm_num
  · rw [startupRun_replicate]
    show (if info.api_version = "v1" then _ else _) = _
    norm_num

/-- C8 counterexample: a malformed IP address makes `__main__.py` exit
with status 1, and an unsupported device API version also terminates with
status 1 — the two failure classes share the same exit status, so they
are not distinguishable from the exit code alone. -/
theorem C8_counterexample :
    validateStartup "12.34.56" 1 = some 1 ∧
    startupRun .grid 10 1 0 none [some ⟨"X", "1.2", "v2", "P1"⟩] 0 =
      .exitWith 1 := by
  constructor
  · decide
  · decide

/-- C8 (amended): among the rejected startup configurations only the
too-low poll interval gets an exit status (2) distinct from the
unsupported-API-version status (1); a malformed IP address exits with
status 1, identical to the unsupported-API-version case. -/
theorem C8_exit_codes :
    validateStartup "12.34.56" 1 = some 1 ∧
    validateStartup "1.2.3.4" qTenth = some 2 ∧
    validateStartup "1.2.3.4" 1 = none ∧
    startupRun .grid 10 1 0 none [some ⟨"X", "1.2", "v2", "P1"⟩] 0 =
      .exitWith 1 ∧
    (2 : Nat) ≠ 1 := by
  refine ⟨by decide, by decide, by decide, by decide, by decide⟩

/-- C9: end-to-end example — with role `pvinverter` and phase 1, an
identity payload reporting api version `"v1"` registers the schema, and
one poll cycle on the example payload (100 W active power, 0 kWh
exported, 5 kWh imported) publishes `/Ac/Power = -100`,
`/Ac/Energy/Forward = 0`, `/Ac/Energy/Reverse = 5` and `/Connected = 1`. -/
theorem C9_end_to_end :
    startupRun .pvinverter 10 1 0 none [some ⟨"X", "1.2", "v1", "P1"⟩] 0 =
      .registered (registerDbus .pvinverter 10 1 0 none "X" "P1" "1.2") 0 ∧
    (updateDbus .pvinverter
        (registerDbus .pvinverter 10 1 0 none "X" "P1" "1.2")
        (some examplePayload)).map
      (fun s => (ratAt s "/Ac/Power", ratAt s "/Ac/Energy/Forward",
                 ratAt s "/Ac/Energy/Reverse", lookupSvc s "/Connected")) =
      some (some (-100), some 0, some 5, some (BusValue.vInt 1)) := by
  constructor
  · decide
  · decide
